import Mathlib

/-!
Shallow embedding of the multi-provider translation orchestrator of
`src/script.js` (repository `Aurangzaib-B/langugae-converter`).

The embedded core is:
  * the static configuration `CONFIG.LANGUAGES` and `CONFIG.APIS`;
  * the three provider adapters `translateWithLingva`,
    `translateWithMyMemory`, `translateWithLibreTranslate`
    (lines 164-228 of `src/script.js`);
  * the fallback orchestrator `translateText` (lines 238-289).

Modelling conventions:
  * Each `fetch` the program could perform is modelled by a `FetchResult`
    value supplied as an explicit environment: either the transport fails
    (`networkError`, a browser `TypeError`), or a response arrives with an
    HTTP status and an optional parsed JSON body (`none` models a body that
    fails to parse as JSON, i.e. `response.json()` throwing).
  * JavaScript exceptions are modelled by `Except JsError`; a `TypeError`
    thrown synchronously (before any request is issued) is distinguished
    from ordinary `Error`s because it settles before the 10 s timer.
  * A call's wall-clock settle time is a `Nat` number of milliseconds in
    the environment; `Promise.race` with the 10000 ms timer is modelled by
    `withTimeout`: the call wins exactly when its settle time does not
    exceed 10000 ms (the source arms the timer with `setTimeout(.., 10000)`).
  * Each adapter also reports the list of HTTP requests it issued, so that
    "adapter X was never invoked / no network request was made" is a
    statement about the returned request trace.  A `Request` records the
    structured URL, the method, whether a JSON content type header was set,
    the JSON body of a POST, and the `AbortSignal` attached through the
    `fetch` init options (`none` when the source attaches no signal, as in
    `fetch(url)` at lines 169, 189 and `fetch(api.endpoint, {...})` at
    line 208, whose init object has no `signal` key).
  * URLs are kept structured rather than percent-encoded strings: the
    `ReqUrl` constructors record the endpoint and the raw components the
    source interpolates (after `encodeURIComponent`), which is all the
    claims depend on.
-/

/-- One entry of `CONFIG.APIS` (lines 22-38): display name, endpoint, type. -/
structure ApiEntry where
  name : String
  endpoint : String
  apiType : String
deriving DecidableEq

/-- `CONFIG.APIS` (lines 22-38 of `src/script.js`). -/
def CONFIG_APIS : List ApiEntry :=
  [⟨"Lingva Translate", "https://lingva.ml/api/v1", "lingva"⟩,
   ⟨"MyMemory", "https://api.mymemory.translated.net/get", "mymemory"⟩,
   ⟨"LibreTranslate", "https://libretranslate.com/translate", "libretranslate"⟩]

/-- One entry of `CONFIG.LANGUAGES` (lines 44-49): display name, RTL flag, code. -/
structure LangInfo where
  name : String
  rtl : Bool
  code : String
deriving DecidableEq

/-- `CONFIG.LANGUAGES` (lines 44-49 of `src/script.js`): a JavaScript object
keyed by the four supported ISO codes; property lookup on any other key
yields `undefined`, modelled by `none`. -/
def CONFIG_LANGUAGES (c : String) : Option LangInfo :=
  if c = "en" then some ⟨"English", false, "en"⟩
  else if c = "ur" then some ⟨"Urdu", true, "ur"⟩
  else if c = "hi" then some ⟨"Hindi", false, "hi"⟩
  else if c = "fr" then some ⟨"French", false, "fr"⟩
  else none

/-- HTTP method of a `fetch` call. -/
inductive HttpMethod
  | GET
  | POST
deriving DecidableEq

/-- JSON body of the LibreTranslate POST (lines 211-216): the object literal
`JSON.stringify({ q: text, source: 'en', target: targetCode, format: 'text' })`. -/
structure LibrePostBody where
  q : String
  source : String
  target : String
  format : String
deriving DecidableEq

/-- Structured form of the URL a `fetch` call targets.
`lingvaPath endpoint src code text` stands for
`endpoint + "/" + src + "/" + code + "/" + encodeURIComponent(text)` (line 167);
`mymemoryQuery endpoint text src code` stands for
`endpoint + "?q=" + encodeURIComponent(text) + "&langpair=" + src + "|" + code`
(line 187); `plain endpoint` is a URL with no interpolation (line 208). -/
inductive ReqUrl
  | lingvaPath (endpoint srcLang targetCode rawText : String)
  | mymemoryQuery (endpoint rawText srcLang targetCode : String)
  | plain (endpoint : String)
deriving DecidableEq

/-- One HTTP request issued through `fetch`, as shaped by the source.
`signal` is the `AbortSignal` passed in the init options; the source never
passes one, so every constructed request carries `none` here. -/
structure Request where
  url : ReqUrl
  method : HttpMethod
  contentTypeJson : Bool
  body : Option LibrePostBody
  signal : Option Unit
deriving DecidableEq

/-- A JavaScript exception: `TypeError` (thrown by property access on
`undefined`, and by the browser for a transport failure) or a plain
`Error(msg)`. -/
inductive JsError
  | typeError (msg : String)
  | jsError (msg : String)
deriving DecidableEq

/-- Environment describing how one `fetch` call settles: the transport fails,
or a response with the given HTTP status arrives whose body parses to the
given JSON value (`none` = `response.json()` throws). -/
inductive FetchResult (β : Type)
  | networkError
  | response (status : Nat) (json : Option β)
deriving DecidableEq

/-- Parsed JSON shape the Lingva adapter inspects: `data.translation`
(line 173), `none` when the property is absent. -/
structure LingvaBody where
  translation : Option String
deriving DecidableEq

/-- Parsed JSON shape under `data.responseData` for MyMemory:
`responseData.translatedText` (line 193). -/
structure MyMemoryInner where
  translatedText : Option String
deriving DecidableEq

/-- Parsed JSON shape the MyMemory adapter inspects: `data.responseData`
with its optional-chained `translatedText` (line 193). -/
structure MyMemoryBody where
  responseData : Option MyMemoryInner
deriving DecidableEq

/-- Parsed JSON shape the LibreTranslate adapter inspects:
`data.translatedText` (line 222). -/
structure LibreBody where
  translatedText : Option String
deriving DecidableEq

/-- Result object returned by every adapter on success:
`{ translatedText, apiUsed }` (lines 175-178, 195-198, 224-227). -/
structure TransResult where
  translatedText : String
  apiUsed : String
deriving DecidableEq

/-- `Response.ok` of the fetch API: status in the inclusive range 200-299. -/
def statusOk (status : Nat) : Bool :=
  decide (200 ≤ status ∧ status < 300)

/-- The request `translateWithLingva` issues (line 167-169):
`fetch(api.endpoint + "/auto/" + targetCode + "/" + encodeURIComponent(text))`
with no init options, hence GET, no body, no abort signal. -/
def lingvaReq (targetCode text : String) : Request :=
  ⟨ReqUrl.lingvaPath "https://lingva.ml/api/v1" "auto" targetCode text,
   HttpMethod.GET, false, none, none⟩

/-- The request `translateWithMyMemory` issues (line 187-189):
`fetch(api.endpoint + "?q=" + encodeURIComponent(text) + "&langpair=en|" + targetCode)`
with no init options. -/
def mymemoryReq (targetCode text : String) : Request :=
  ⟨ReqUrl.mymemoryQuery "https://api.mymemory.translated.net/get" text "en" targetCode,
   HttpMethod.GET, false, none, none⟩

/-- The request `translateWithLibreTranslate` issues (lines 208-217): a POST
to the fixed endpoint with a JSON content type and the body
`{ q: text, source: 'en', target: targetCode, format: 'text' }`; the init
object carries no `signal` key. -/
def libreReq (targetCode text : String) : Request :=
  ⟨ReqUrl.plain "https://libretranslate.com/translate",
   HttpMethod.POST, true, some ⟨text, "en", targetCode, "text"⟩, none⟩

/-- Response handling of `translateWithLingva` (lines 169-178):
throw `HTTP <status>` when `!response.ok`; throw on an unparsable body
(`response.json()` rejecting); throw `No translation in response` when
`!data.translation` — in JavaScript this is taken both when the property is
absent and when it is the empty string, both being falsy; otherwise resolve
with `{ translatedText: data.translation, apiUsed: api.name }`. -/
def lingvaParse (fenv : FetchResult LingvaBody) : Except JsError TransResult :=
  match fenv with
  | FetchResult.networkError => Except.error (JsError.typeError "Failed to fetch")
  | FetchResult.response status json =>
    if statusOk status then
      match json with
      | none => Except.error (JsError.jsError "Unexpected end of JSON input")
      | some data =>
        match data.translation with
        | none => Except.error (JsError.jsError "No translation in response")
        | some s =>
          if s = "" then Except.error (JsError.jsError "No translation in response")
          else Except.ok ⟨s, (CONFIG_APIS.get ⟨0, by decide⟩).name⟩
    else Except.error (JsError.jsError ("HTTP " ++ toString status))

/-- Response handling of `translateWithMyMemory` (lines 189-198): as for
Lingva but reading the optional chain `data.responseData?.translatedText`,
which is falsy when `responseData` is absent, when `translatedText` is
absent, or when it is the empty string. -/
def mymemoryParse (fenv : FetchResult MyMemoryBody) : Except JsError TransResult :=
  match fenv with
  | FetchResult.networkError => Except.error (JsError.typeError "Failed to fetch")
  | FetchResult.response status json =>
    if statusOk status then
      match json with
      | none => Except.error (JsError.jsError "Unexpected end of JSON input")
      | some data =>
        match data.responseData with
        | none => Except.error (JsError.jsError "No translation in response")
        | some inner =>
          match inner.translatedText with
          | none => Except.error (JsError.jsError "No translation in response")
          | some s =>
            if s = "" then Except.error (JsError.jsError "No translation in response")
            else Except.ok ⟨s, (CONFIG_APIS.get ⟨1, by decide⟩).name⟩
    else Except.error (JsError.jsError ("HTTP " ++ toString status))

/-- Response handling of `translateWithLibreTranslate` (lines 219-227): as
for Lingva but reading `data.translatedText`. -/
def libreParse (fenv : FetchResult LibreBody) : Except JsError TransResult :=
  match fenv with
  | FetchResult.networkError => Except.error (JsError.typeError "Failed to fetch")
  | FetchResult.response status json =>
    if statusOk status then
      match json with
      | none => Except.error (JsError.jsError "Unexpected end of JSON input")
      | some data =>
        match data.translatedText with
        | none => Except.error (JsError.jsError "No translation in response")
        | some s =>
          if s = "" then Except.error (JsError.jsError "No translation in response")
          else Except.ok ⟨s, (CONFIG_APIS.get ⟨2, by decide⟩).name⟩
    else Except.error (JsError.jsError ("HTTP " ++ toString status))

/-- `translateWithLingva` (lines 164-179).  Reading
`CONFIG.LANGUAGES[targetLang].code` on an unknown code throws a `TypeError`
before any request is issued (empty request trace); otherwise the adapter
issues its one GET and handles the response per `lingvaParse`. -/
def translateWithLingva (text targetLang : String) (fenv : FetchResult LingvaBody) :
    List Request × Except JsError TransResult :=
  match CONFIG_LANGUAGES targetLang with
  | none => ([], Except.error (JsError.typeError "Cannot read properties of undefined (reading code)"))
  | some lang => ([lingvaReq lang.code text], lingvaParse fenv)

/-- `translateWithMyMemory` (lines 184-199), analogous to `translateWithLingva`. -/
def translateWithMyMemory (text targetLang : String) (fenv : FetchResult MyMemoryBody) :
    List Request × Except JsError TransResult :=
  match CONFIG_LANGUAGES targetLang with
  | none => ([], Except.error (JsError.typeError "Cannot read properties of undefined (reading code)"))
  | some lang => ([mymemoryReq lang.code text], mymemoryParse fenv)

/-- `translateWithLibreTranslate` (lines 204-228), analogous. -/
def translateWithLibreTranslate (text targetLang : String) (fenv : FetchResult LibreBody) :
    List Request × Except JsError TransResult :=
  match CONFIG_LANGUAGES targetLang with
  | none => ([], Except.error (JsError.typeError "Cannot read properties of undefined (reading code)"))
  | some lang => ([libreReq lang.code text], libreParse fenv)

/-- The timeout armed by `setTimeout(() => controller.abort(), 10000)`
(line 254), in milliseconds. -/
def TIMEOUT_MS : Nat := 10000

/-- Environment for one orchestration call: for each provider, the number of
milliseconds after which its call settles and the fetch outcome it settles
with. -/
structure ProviderEnv where
  lingvaDuration : Nat
  lingvaFetch : FetchResult LingvaBody
  mymemoryDuration : Nat
  mymemoryFetch : FetchResult MyMemoryBody
  libreDuration : Nat
  libreFetch : FetchResult LibreBody
deriving DecidableEq

/-- `Promise.race([resultPromise, timeout rejection])` (lines 253-264).
If the adapter threw synchronously before issuing any request (empty trace,
only possible via the registry `TypeError`), its rejection settles at once
and beats the timer.  Otherwise the call settles after `duration` ms and the
timer rejection wins exactly when `duration` exceeds `TIMEOUT_MS`, in which
case the attempt fails with `Error('Request timeout')` (line 261). -/
def withTimeout (duration : Nat) (call : List Request × Except JsError TransResult) :
    List Request × Except JsError TransResult :=
  match call with
  | ([], r) => ([], r)
  | (rq :: rest, r) =>
    if TIMEOUT_MS < duration then (rq :: rest, Except.error (JsError.jsError "Request timeout"))
    else (rq :: rest, r)

/-- The `i`-th attempt of the loop at lines 249-264: `apis[i](text, targetLang)`
raced against the 10000 ms timer.  `apis` has exactly three elements
(lines 242-246); indexing past the end would be calling `undefined`, which
throws a `TypeError` synchronously — unreachable for the loop's indices. -/
def attemptAt (text targetLang : String) (env : ProviderEnv) :
    Nat → List Request × Except JsError TransResult
  | 0 => withTimeout env.lingvaDuration (translateWithLingva text targetLang env.lingvaFetch)
  | 1 => withTimeout env.mymemoryDuration (translateWithMyMemory text targetLang env.mymemoryFetch)
  | 2 => withTimeout env.libreDuration (translateWithLibreTranslate text targetLang env.libreFetch)
  | _ + 3 => ([], Except.error (JsError.typeError "apis[i] is not a function"))

/-- The result object `translateText` returns on success (lines 270-275):
the adapter's fields plus `detectedLanguage: null, detectedConfidence: null`. -/
structure FullResult where
  translatedText : String
  apiUsed : String
  detectedLanguage : Option String
  detectedConfidence : Option Nat
deriving DecidableEq

/-- Lines 270-275: wrap an adapter result into the orchestrator's result. -/
def mkFull (r : TransResult) : FullResult :=
  ⟨r.translatedText, r.apiUsed, none, none⟩

/-- The `for` loop of lines 249-286 over the remaining adapter indices,
returning the accumulated request trace and `some` outcome when the loop
body returns or throws, `none` when the loop falls through.  A successful
attempt returns immediately (line 270); a failed attempt on the last index
(`i === apis.length - 1`, line 281) throws the aggregate error (line 282);
otherwise the loop continues with the next index. -/
def translateLoop (text targetLang : String) (env : ProviderEnv) :
    List Nat → List Request × Option (Except JsError FullResult)
  | [] => ([], none)
  | i :: rest =>
    match (attemptAt text targetLang env i).snd, rest with
    | Except.ok res, _ =>
      ((attemptAt text targetLang env i).fst, some (Except.ok (mkFull res)))
    | Except.error _, [] =>
      ((attemptAt text targetLang env i).fst,
       some (Except.error (JsError.jsError "All translation APIs failed. Please try again later.")))
    | Except.error _, j :: rest2 =>
      ((attemptAt text targetLang env i).fst ++ (translateLoop text targetLang env (j :: rest2)).fst,
       (translateLoop text targetLang env (j :: rest2)).snd)

/-- `translateText` (lines 238-289).  Line 239 reads
`CONFIG.LANGUAGES[targetLang].name` for the log message, which throws a
`TypeError` when the code is not in the registry, before the adapter array
is even built; otherwise the loop runs over indices `[0, 1, 2]`, and the
trailing `throw new Error('Translation failed with all APIs')` (line 288)
fires only if the loop falls through. -/
def translateText (text targetLang : String) (env : ProviderEnv) :
    List Request × Except JsError FullResult :=
  match CONFIG_LANGUAGES targetLang with
  | none => ([], Except.error (JsError.typeError "Cannot read properties of undefined (reading name)"))
  | some _ =>
    match translateLoop text targetLang env [0, 1, 2] with
    | (reqs, some r) => (reqs, r)
    | (reqs, none) => (reqs, Except.error (JsError.jsError "Translation failed with all APIs"))

/-- An attempt "fails" when the raced promise rejects (timeout or adapter error). -/
def attemptFails (text targetLang : String) (env : ProviderEnv) (i : Nat) : Prop :=
  ∃ e, (attemptAt text targetLang env i).snd = Except.error e

/-- Settle time of attempt `i` in the environment. -/
def attemptDuration (env : ProviderEnv) : Nat → Nat
  | 0 => env.lingvaDuration
  | 1 => env.mymemoryDuration
  | 2 => env.libreDuration
  | _ + 3 => 0

/-- Replace attempt `i`'s underlying fetch by a transport failure settling
immediately — the environment in which provider `i` plainly fails. -/
def setFetchFail (env : ProviderEnv) : Nat → ProviderEnv
  | 0 => ⟨0, FetchResult.networkError, env.mymemoryDuration, env.mymemoryFetch,
          env.libreDuration, env.libreFetch⟩
  | 1 => ⟨env.lingvaDuration, env.lingvaFetch, 0, FetchResult.networkError,
          env.libreDuration, env.libreFetch⟩
  | 2 => ⟨env.lingvaDuration, env.lingvaFetch, env.mymemoryDuration, env.mymemoryFetch,
          0, FetchResult.networkError⟩
  | _ + 3 => env

/-! ### Helper lemmas -/

theorem withTimeout_fst (d : Nat) (c : List Request × Except JsError TransResult) :
    (withTimeout d c).fst = c.fst := by
  rcases c with ⟨reqs, r⟩
  cases reqs with
  | nil => rfl
  | cons rq rest =>
    simp only [withTimeout]
    split <;> rfl

theorem withTimeout_snd_of_le (d : Nat) (c : List Request × Except JsError TransResult)
    (h : d ≤ TIMEOUT_MS) : (withTimeout d c).snd = c.snd := by
  rcases c with ⟨reqs, r⟩
  cases reqs with
  | nil => rfl
  | cons rq rest =>
    simp only [withTimeout]
    rw [if_neg (Nat.not_lt.mpr h)]

theorem withTimeout_snd_timeout (d : Nat) (c : List Request × Except JsError TransResult)
    (h : TIMEOUT_MS < d) (hne : c.fst ≠ []) :
    (withTimeout d c).snd = Except.error (JsError.jsError "Request timeout") := by
  rcases c with ⟨reqs, r⟩
  cases reqs with
  | nil => exact absurd rfl hne
  | cons rq rest =>
    simp only [withTimeout]
    rw [if_pos h]

theorem translateWithLingva_eq (text targetLang : String) (info : LangInfo)
    (fenv : FetchResult LingvaBody) (h : CONFIG_LANGUAGES targetLang = some info) :
    translateWithLingva text targetLang fenv = ([lingvaReq info.code text], lingvaParse fenv) := by
  simp only [translateWithLingva, h]

theorem translateWithMyMemory_eq (text targetLang : String) (info : LangInfo)
    (fenv : FetchResult MyMemoryBody) (h : CONFIG_LANGUAGES targetLang = some info) :
    translateWithMyMemory text targetLang fenv = ([mymemoryReq info.code text], mymemoryParse fenv) := by
  simp only [translateWithMyMemory, h]

theorem translateWithLibreTranslate_eq (text targetLang : String) (info : LangInfo)
    (fenv : FetchResult LibreBody) (h : CONFIG_LANGUAGES targetLang = some info) :
    translateWithLibreTranslate text targetLang fenv = ([libreReq info.code text], libreParse fenv) := by
  simp only [translateWithLibreTranslate, h]

theorem lingvaParse_ok_iff (fenv : FetchResult LingvaBody) (r : TransResult) :
    lingvaParse fenv = Except.ok r ↔
      ∃ status data s, fenv = FetchResult.response status (some data) ∧ statusOk status = true ∧
        data.translation = some s ∧ s ≠ "" ∧ r = ⟨s, "Lingva Translate"⟩ := by
  cases fenv with
  | networkError => simp [lingvaParse]
  | response status json =>
    by_cases hok : statusOk status
    · cases json with
      | none => simp [lingvaParse, hok]
      | some data =>
        rcases data with ⟨t⟩
        cases t with
        | none => simp [lingvaParse, hok]
        | some s =>
          by_cases hs : s = ""
          · subst hs
            simp [lingvaParse, hok]
          · simp only [lingvaParse, hok, if_true, if_neg hs]
            constructor
            · rintro h
              refine ⟨status, ⟨some s⟩, s, rfl, hok, rfl, hs, ?_⟩
              cases h
              rfl
            · rintro ⟨st2, d2, s2, heq, -, hfield, -, hr⟩
              cases heq
              cases hfield
              cases hr
              rfl
    · constructor
      · intro h
        exfalso
        simp [lingvaParse, hok] at h
      · rintro ⟨st2, d2, s2, heq, hok2, -, -, -⟩
        cases heq
        exact absurd hok2 hok

theorem mymemoryParse_ok_iff (fenv : FetchResult MyMemoryBody) (r : TransResult) :
    mymemoryParse fenv = Except.ok r ↔
      ∃ status data inner s, fenv = FetchResult.response status (some data) ∧
        statusOk status = true ∧ data.responseData = some inner ∧
        inner.translatedText = some s ∧ s ≠ "" ∧ r = ⟨s, "MyMemory"⟩ := by
  cases fenv with
  | networkError => simp [mymemoryParse]
  | response status json =>
    by_cases hok : statusOk status
    · cases json with
      | none => simp [mymemoryParse, hok]
      | some data =>
        rcases data with ⟨rd⟩
        cases rd with
        | none => simp [mymemoryParse, hok]
        | some inner =>
          rcases inner with ⟨t⟩
          cases t with
          | none => simp [mymemoryParse, hok]
          | some s =>
            by_cases hs : s = ""
            · subst hs
              simp [mymemoryParse, hok]
            · simp only [mymemoryParse, hok, if_true, if_neg hs]
              constructor
              · rintro h
                refine ⟨status, ⟨some ⟨some s⟩⟩, ⟨some s⟩, s, rfl, hok, rfl, rfl, hs, ?_⟩
                cases h
                rfl
              · rintro ⟨st2, d2, i2, s2, heq, -, hinner, hfield, -, hr⟩
                cases heq
                cases hinner
                cases hfield
                cases hr
                rfl
    · constructor
      · intro h
        exfalso
        simp [mymemoryParse, hok] at h
      · rintro ⟨st2, d2, i2, s2, heq, hok2, -, -, -, -⟩
        cases heq
        exact absurd hok2 hok

theorem libreParse_ok_iff (fenv : FetchResult LibreBody) (r : TransResult) :
    libreParse fenv = Except.ok r ↔
      ∃ status data s, fenv = FetchResult.response status (some data) ∧ statusOk status = true ∧
        data.translatedText = some s ∧ s ≠ "" ∧ r = ⟨s, "LibreTranslate"⟩ := by
  cases fenv with
  | networkError => simp [libreParse]
  | response status json =>
    by_cases hok : statusOk status
    · cases json with
      | none => simp [libreParse, hok]
      | some data =>
        rcases data with ⟨t⟩
        cases t with
        | none => simp [libreParse, hok]
        | some s =>
          by_cases hs : s = ""
          · subst hs
            simp [libreParse, hok]
          · simp only [libreParse, hok, if_true, if_neg hs]
            constructor
            · rintro h
              refine ⟨status, ⟨some s⟩, s, rfl, hok, rfl, hs, ?_⟩
              cases h
              rfl
            · rintro ⟨st2, d2, s2, heq, -, hfield, -, hr⟩
              cases heq
              cases hfield
              cases hr
              rfl
    · constructor
      · intro h
        exfalso
        simp [libreParse, hok] at h
      · rintro ⟨st2, d2, s2, heq, hok2, -, -, -⟩
        cases heq
        exact absurd hok2 hok

theorem attemptAt_zero_fst (text targetLang : String) (env : ProviderEnv) (info : LangInfo)
    (h : CONFIG_LANGUAGES targetLang = some info) :
    (attemptAt text targetLang env 0).fst = [lingvaReq info.code text] := by
  simp only [attemptAt, withTimeout_fst, translateWithLingva_eq text targetLang info _ h]

theorem attemptAt_one_fst (text targetLang : String) (env : ProviderEnv) (info : LangInfo)
    (h : CONFIG_LANGUAGES targetLang = some info) :
    (attemptAt text targetLang env 1).fst = [mymemoryReq info.code text] := by
  simp only [attemptAt, withTimeout_fst, translateWithMyMemory_eq text targetLang info _ h]

theorem attemptAt_two_fst (text targetLang : String) (env : ProviderEnv) (info : LangInfo)
    (h : CONFIG_LANGUAGES targetLang = some info) :
    (attemptAt text targetLang env 2).fst = [libreReq info.code text] := by
  simp only [attemptAt, withTimeout_fst, translateWithLibreTranslate_eq text targetLang info _ h]

theorem attemptAt_zero_snd_of_le (text targetLang : String) (env : ProviderEnv) (info : LangInfo)
    (h : CONFIG_LANGUAGES targetLang = some info) (hd : env.lingvaDuration ≤ TIMEOUT_MS) :
    (attemptAt text targetLang env 0).snd = lingvaParse env.lingvaFetch := by
  simp only [attemptAt, translateWithLingva_eq text targetLang info _ h,
    withTimeout_snd_of_le _ _ hd]

theorem attemptAt_one_snd_of_le (text targetLang : String) (env : ProviderEnv) (info : LangInfo)
    (h : CONFIG_LANGUAGES targetLang = some info) (hd : env.mymemoryDuration ≤ TIMEOUT_MS) :
    (attemptAt text targetLang env 1).snd = mymemoryParse env.mymemoryFetch := by
  simp only [attemptAt, translateWithMyMemory_eq text targetLang info _ h,
    withTimeout_snd_of_le _ _ hd]

theorem attemptAt_two_snd_of_le (text targetLang : String) (env : ProviderEnv) (info : LangInfo)
    (h : CONFIG_LANGUAGES targetLang = some info) (hd : env.libreDuration ≤ TIMEOUT_MS) :
    (attemptAt text targetLang env 2).snd = libreParse env.libreFetch := by
  simp only [attemptAt, translateWithLibreTranslate_eq text targetLang info _ h,
    withTimeout_snd_of_le _ _ hd]

theorem attemptAt_snd_timeout (text targetLang : String) (env : ProviderEnv) (info : LangInfo)
    (i : Nat) (hi : i < 3) (h : CONFIG_LANGUAGES targetLang = some info)
    (hd : TIMEOUT_MS < attemptDuration env i) :
    (attemptAt text targetLang env i).snd = Except.error (JsError.jsError "Request timeout") := by
  match i, hi with
  | 0, _ =>
    simp only [attemptAt]
    exact withTimeout_snd_timeout _ _ hd (by
      rw [translateWithLingva_eq text targetLang info _ h]
      simp)
  | 1, _ =>
    simp only [attemptAt]
    exact withTimeout_snd_timeout _ _ hd (by
      rw [translateWithMyMemory_eq text targetLang info _ h]
      simp)
  | 2, _ =>
    simp only [attemptAt]
    exact withTimeout_snd_timeout _ _ hd (by
      rw [translateWithLibreTranslate_eq text targetLang info _ h]
      simp)

theorem translateLoop_012_ok0 (text targetLang : String) (env : ProviderEnv) (r : TransResult)
    (h0 : (attemptAt text targetLang env 0).snd = Except.ok r) :
    translateLoop text targetLang env [0, 1, 2] =
      ((attemptAt text targetLang env 0).fst, some (Except.ok (mkFull r))) := by
  simp [translateLoop, h0]

theorem translateLoop_012_ok1 (text targetLang : String) (env : ProviderEnv)
    (e0 : JsError) (r : TransResult)
    (h0 : (attemptAt text targetLang env 0).snd = Except.error e0)
    (h1 : (attemptAt text targetLang env 1).snd = Except.ok r) :
    translateLoop text targetLang env [0, 1, 2] =
      ((attemptAt text targetLang env 0).fst ++ (attemptAt text targetLang env 1).fst,
       some (Except.ok (mkFull r))) := by
  simp [translateLoop, h0, h1]

theorem translateLoop_012_ok2 (text targetLang : String) (env : ProviderEnv)
    (e0 e1 : JsError) (r : TransResult)
    (h0 : (attemptAt text targetLang env 0).snd = Except.error e0)
    (h1 : (attemptAt text targetLang env 1).snd = Except.error e1)
    (h2 : (attemptAt text targetLang env 2).snd = Except.ok r) :
    translateLoop text targetLang env [0, 1, 2] =
      ((attemptAt text targetLang env 0).fst ++
        ((attemptAt text targetLang env 1).fst ++ (attemptAt text targetLang env 2).fst),
       some (Except.ok (mkFull r))) := by
  simp [translateLoop, h0, h1, h2]

theorem translateLoop_012_allfail (text targetLang : String) (env : ProviderEnv)
    (e0 e1 e2 : JsError)
    (h0 : (attemptAt text targetLang env 0).snd = Except.error e0)
    (h1 : (attemptAt text targetLang env 1).snd = Except.error e1)
    (h2 : (attemptAt text targetLang env 2).snd = Except.error e2) :
    translateLoop text targetLang env [0, 1, 2] =
      ((attemptAt text targetLang env 0).fst ++
        ((attemptAt text targetLang env 1).fst ++ (attemptAt text targetLang env 2).fst),
       some (Except.error (JsError.jsError "All translation APIs failed. Please try again later."))) := by
  simp [translateLoop, h0, h1, h2]

theorem translateLoop_012_some (text targetLang : String) (env : ProviderEnv) :
    (translateLoop text targetLang env [0, 1, 2]).snd ≠ none := by
  cases h0 : (attemptAt text targetLang env 0).snd with
  | ok r =>
    rw [translateLoop_012_ok0 text targetLang env r h0]
    simp
  | error e0 =>
    cases h1 : (attemptAt text targetLang env 1).snd with
    | ok r =>
      rw [translateLoop_012_ok1 text targetLang env e0 r h0 h1]
      simp
    | error e1 =>
      cases h2 : (attemptAt text targetLang env 2).snd with
      | ok r =>
        rw [translateLoop_012_ok2 text targetLang env e0 e1 r h0 h1 h2]
        simp
      | error e2 =>
        rw [translateLoop_012_allfail text targetLang env e0 e1 e2 h0 h1 h2]
        simp

theorem translateText_of_invalid (text targetLang : String) (env : ProviderEnv)
    (h : CONFIG_LANGUAGES targetLang = none) :
    translateText text targetLang env =
      ([], Except.error (JsError.typeError "Cannot read properties of undefined (reading name)")) := by
  simp only [translateText, h]

theorem translateText_of_valid (text targetLang : String) (env : ProviderEnv) (info : LangInfo)
    (h : CONFIG_LANGUAGES targetLang = some info) :
    translateText text targetLang env =
      ((translateLoop text targetLang env [0, 1, 2]).fst,
       (translateLoop text targetLang env [0, 1, 2]).snd.getD
         (Except.error (JsError.jsError "Translation failed with all APIs"))) := by
  simp only [translateText, h]
  rcases hl : translateLoop text targetLang env [0, 1, 2] with ⟨reqs, o⟩
  cases o <;> simp

theorem translateText_fst_sublist (text targetLang : String) (env : ProviderEnv) (info : LangInfo)
    (hlang : CONFIG_LANGUAGES targetLang = some info) :
    List.Sublist (translateText text targetLang env).fst
      [lingvaReq info.code text, mymemoryReq info.code text, libreReq info.code text] := by
  rw [translateText_of_valid text targetLang env info hlang]
  cases h0 : (attemptAt text targetLang env 0).snd with
  | ok r =>
    rw [translateLoop_012_ok0 text targetLang env r h0]
    simp only [attemptAt_zero_fst text targetLang env info hlang]
    exact List.Sublist.cons₂ _ (List.nil_sublist _)
  | error e0 =>
    cases h1 : (attemptAt text targetLang env 1).snd with
    | ok r =>
      rw [translateLoop_012_ok1 text targetLang env e0 r h0 h1]
      simp only [attemptAt_zero_fst text targetLang env info hlang,
        attemptAt_one_fst text targetLang env info hlang, List.cons_append, List.nil_append]
      exact List.Sublist.cons₂ _ (List.Sublist.cons₂ _ (List.nil_sublist _))
    | error e1 =>
      cases h2 : (attemptAt text targetLang env 2).snd with
      | ok r =>
        rw [translateLoop_012_ok2 text targetLang env e0 e1 r h0 h1 h2]
        simp only [attemptAt_zero_fst text targetLang env info hlang,
          attemptAt_one_fst text targetLang env info hlang,
          attemptAt_two_fst text targetLang env info hlang, List.cons_append, List.nil_append]
        exact List.Sublist.refl _
      | error e2 =>
        rw [translateLoop_012_allfail text targetLang env e0 e1 e2 h0 h1 h2]
        simp only [attemptAt_zero_fst text targetLang env info hlang,
          attemptAt_one_fst text targetLang env info hlang,
          attemptAt_two_fst text targetLang env info hlang, List.cons_append, List.nil_append]
        exact List.Sublist.refl _

theorem translateText_signal_none (text targetLang : String) (env : ProviderEnv) :
    ∀ rq ∈ (translateText text targetLang env).fst, rq.signal = none := by
  intro rq hrq
  cases hl : CONFIG_LANGUAGES targetLang with
  | none =>
    rw [translateText_of_invalid text targetLang env hl] at hrq
    simp at hrq
  | some info =>
    have hmem : rq ∈ [lingvaReq info.code text, mymemoryReq info.code text, libreReq info.code text] :=
      (translateText_fst_sublist text targetLang env info hl).subset hrq
    have h3 : rq = lingvaReq info.code text ∨ rq = mymemoryReq info.code text ∨
        rq = libreReq info.code text := by simpa using hmem
    rcases h3 with rfl | rfl | rfl <;> rfl

theorem translateLoop_congr (text targetLang : String) (env env2 : ProviderEnv) (l : List Nat) :
    (∀ j ∈ l, (attemptAt text targetLang env j).fst = (attemptAt text targetLang env2 j).fst) →
    (∀ j ∈ l, (attemptAt text targetLang env j).snd = (attemptAt text targetLang env2 j).snd ∨
      ((∃ e, (attemptAt text targetLang env j).snd = Except.error e) ∧
       (∃ e, (attemptAt text targetLang env2 j).snd = Except.error e))) →
    translateLoop text targetLang env l = translateLoop text targetLang env2 l := by
  induction l with
  | nil =>
    intro _ _
    rfl
  | cons i rest ih =>
    intro hf hs
    have hfi := hf i (List.mem_cons_self i rest)
    have hsi := hs i (List.mem_cons_self i rest)
    have hf2 : ∀ j ∈ rest, (attemptAt text targetLang env j).fst = (attemptAt text targetLang env2 j).fst :=
      fun j hj => hf j (List.mem_cons_of_mem i hj)
    have hs2 : ∀ j ∈ rest, (attemptAt text targetLang env j).snd = (attemptAt text targetLang env2 j).snd ∨
        ((∃ e, (attemptAt text targetLang env j).snd = Except.error e) ∧
         (∃ e, (attemptAt text targetLang env2 j).snd = Except.error e)) :=
      fun j hj => hs j (List.mem_cons_of_mem i hj)
    cases h0 : (attemptAt text targetLang env i).snd with
    | ok r =>
      have h0b : (attemptAt text targetLang env2 i).snd = Except.ok r := by
        rcases hsi with heq | ⟨⟨e, he⟩, -⟩
        · rw [← heq, h0]
        · rw [h0] at he
          exact absurd he (by simp)
      simp [translateLoop, h0, h0b, hfi]
    | error e =>
      obtain ⟨e2, he2⟩ : ∃ e2, (attemptAt text targetLang env2 i).snd = Except.error e2 := by
        rcases hsi with heq | ⟨-, h2⟩
        · exact ⟨e, by rw [← heq, h0]⟩
        · exact h2
      cases rest with
      | nil => simp [translateLoop, h0, he2, hfi]
      | cons j rest2 => simp [translateLoop, h0, he2, hfi, ih hf2 hs2]

theorem translateText_congr (text targetLang : String) (env env2 : ProviderEnv)
    (hf : ∀ j ∈ [0, 1, 2], (attemptAt text targetLang env j).fst = (attemptAt text targetLang env2 j).fst)
    (hs : ∀ j ∈ [0, 1, 2], (attemptAt text targetLang env j).snd = (attemptAt text targetLang env2 j).snd ∨
      ((∃ e, (attemptAt text targetLang env j).snd = Except.error e) ∧
       (∃ e, (attemptAt text targetLang env2 j).snd = Except.error e))) :
    translateText text targetLang env = translateText text targetLang env2 := by
  cases hl : CONFIG_LANGUAGES targetLang with
  | none =>
    rw [translateText_of_invalid text targetLang env hl,
        translateText_of_invalid text targetLang env2 hl]
  | some info =>
    rw [translateText_of_valid text targetLang env info hl,
        translateText_of_valid text targetLang env2 info hl,
        translateLoop_congr text targetLang env env2 [0, 1, 2] hf hs]

/-! ### Claim theorems -/

/-- C1: For every valid (text, targetLanguage) pair, if the first adapter
(provider A, Lingva) succeeds — its call settles within the 10000 ms budget
and its response parses to a result `r` — then `translateText` returns A's
result (its `translatedText` under the provider name "Lingva Translate"),
and the request trace consists of A's single request only: the MyMemory and
LibreTranslate adapters are never invoked. -/
theorem c1_first_adapter_success_short_circuits
    (text targetLang : String) (env : ProviderEnv) (info : LangInfo) (r : TransResult)
    (hlang : CONFIG_LANGUAGES targetLang = some info)
    (hd : env.lingvaDuration ≤ TIMEOUT_MS)
    (hok : lingvaParse env.lingvaFetch = Except.ok r) :
    translateText text targetLang env =
      ([lingvaReq info.code text],
       Except.ok ⟨r.translatedText, "Lingva Translate", none, none⟩) := by
  have h0 : (attemptAt text targetLang env 0).snd = Except.ok r := by
    rw [attemptAt_zero_snd_of_le text targetLang env info hlang hd, hok]
  obtain ⟨st, d, s, -, -, -, -, hr⟩ := (lingvaParse_ok_iff env.lingvaFetch r).mp hok
  rw [translateText_of_valid text targetLang env info hlang,
      translateLoop_012_ok0 text targetLang env r h0]
  subst hr
  simp [attemptAt_zero_fst text targetLang env info hlang, mkFull]

/-- Witness for C1: the spec scenario — text "Hello, world!", target "fr",
provider A configured to answer "Bonjour, le monde!" within budget. -/
theorem c1_witness :
    translateText "Hello, world!" "fr"
      ⟨0, FetchResult.response 200 (some ⟨some "Bonjour, le monde!"⟩),
       0, FetchResult.networkError, 0, FetchResult.networkError⟩ =
      ([lingvaReq "fr" "Hello, world!"],
       Except.ok ⟨"Bonjour, le monde!", "Lingva Translate", none, none⟩) :=
  c1_first_adapter_success_short_circuits "Hello, world!" "fr"
    ⟨0, FetchResult.response 200 (some ⟨some "Bonjour, le monde!"⟩),
     0, FetchResult.networkError, 0, FetchResult.networkError⟩
    ⟨"French", false, "fr"⟩ ⟨"Bonjour, le monde!", "Lingva Translate"⟩
    rfl (by decide) rfl

/-- C4: For every valid (text, targetLanguage) pair, if attempt A fails (for
any reason, timeout included) and adapter B (MyMemory) succeeds within
budget, then `translateText` returns a result carrying B's provider name
"MyMemory", and the request trace is exactly A's then B's request: the
LibreTranslate adapter is never invoked. -/
theorem c4_second_adapter_fallback
    (text targetLang : String) (env : ProviderEnv) (info : LangInfo) (e0 : JsError)
    (r : TransResult)
    (hlang : CONFIG_LANGUAGES targetLang = some info)
    (hfail : (attemptAt text targetLang env 0).snd = Except.error e0)
    (hd : env.mymemoryDuration ≤ TIMEOUT_MS)
    (hok : mymemoryParse env.mymemoryFetch = Except.ok r) :
    translateText text targetLang env =
      ([lingvaReq info.code text, mymemoryReq info.code text],
       Except.ok ⟨r.translatedText, "MyMemory", none, none⟩) := by
  have h1 : (attemptAt text targetLang env 1).snd = Except.ok r := by
    rw [attemptAt_one_snd_of_le text targetLang env info hlang hd, hok]
  obtain ⟨st, d, i2, s, -, -, -, -, -, hr⟩ := (mymemoryParse_ok_iff env.mymemoryFetch r).mp hok
  rw [translateText_of_valid text targetLang env info hlang,
      translateLoop_012_ok1 text targetLang env e0 r hfail h1]
  subst hr
  simp [attemptAt_zero_fst text targetLang env info hlang,
        attemptAt_one_fst text targetLang env info hlang, mkFull]

/-- Witness for C4: A's transport fails, B answers "Bonjour" within budget. -/
theorem c4_witness :
    translateText "Hello" "fr"
      ⟨0, FetchResult.networkError,
       0, FetchResult.response 200 (some ⟨some ⟨some "Bonjour"⟩⟩),
       0, FetchResult.networkError⟩ =
      ([lingvaReq "fr" "Hello", mymemoryReq "fr" "Hello"],
       Except.ok ⟨"Bonjour", "MyMemory", none, none⟩) :=
  c4_second_adapter_fallback "Hello" "fr"
    ⟨0, FetchResult.networkError,
     0, FetchResult.response 200 (some ⟨some ⟨some "Bonjour"⟩⟩),
     0, FetchResult.networkError⟩
    ⟨"French", false, "fr"⟩ (JsError.typeError "Failed to fetch")
    ⟨"Bonjour", "MyMemory"⟩ rfl rfl (by decide) rfl

/-- C2: for a valid target language, `translateText` surfaces an error iff
all three raced attempts fail; any surfaced error is the single aggregate
`Error('All translation APIs failed. Please try again later.')`, whose
user-facing message is non-empty, regardless of the individual failure
reasons. -/
theorem c2_aggregate_error_iff_all_fail
    (text targetLang : String) (env : ProviderEnv) (info : LangInfo)
    (hlang : CONFIG_LANGUAGES targetLang = some info) :
    ((∃ e, (translateText text targetLang env).snd = Except.error e) ↔
      (attemptFails text targetLang env 0 ∧ attemptFails text targetLang env 1 ∧
       attemptFails text targetLang env 2))
    ∧ (∀ e, (translateText text targetLang env).snd = Except.error e →
        e = JsError.jsError "All translation APIs failed. Please try again later.")
    ∧ "All translation APIs failed. Please try again later." ≠ "" := by
  have hstr : ("All translation APIs failed. Please try again later." : String) ≠ "" := by decide
  rw [translateText_of_valid text targetLang env info hlang]
  unfold attemptFails
  cases h0 : (attemptAt text targetLang env 0).snd with
  | ok r =>
    rw [translateLoop_012_ok0 text targetLang env r h0]
    refine ⟨?_, ?_, hstr⟩
    · simp [h0]
    · intro e he
      simp at he
  | error e0 =>
    cases h1 : (attemptAt text targetLang env 1).snd with
    | ok r =>
      rw [translateLoop_012_ok1 text targetLang env e0 r h0 h1]
      refine ⟨?_, ?_, hstr⟩
      · simp [h0, h1]
      · intro e he
        simp at he
    | error e1 =>
      cases h2 : (attemptAt text targetLang env 2).snd with
      | ok r =>
        rw [translateLoop_012_ok2 text targetLang env e0 e1 r h0 h1 h2]
        refine ⟨?_, ?_, hstr⟩
        · simp [h0, h1, h2]
        · intro e he
          simp at he
      | error e2 =>
        rw [translateLoop_012_allfail text targetLang env e0 e1 e2 h0 h1 h2]
        refine ⟨?_, ?_, hstr⟩
        · simp [h0, h1, h2]
        · intro e he
          simp at he
          exact he.symm

/-- Environment in which all three providers fail (transport errors). -/
def envAllFail : ProviderEnv :=
  ⟨0, FetchResult.networkError, 0, FetchResult.networkError, 0, FetchResult.networkError⟩

/-- Witness for C2: all three providers mocked to fail. -/
theorem c2_witness :
    ((∃ e, (translateText "Hello" "fr" envAllFail).snd = Except.error e) ↔
      (attemptFails "Hello" "fr" envAllFail 0 ∧ attemptFails "Hello" "fr" envAllFail 1 ∧
       attemptFails "Hello" "fr" envAllFail 2))
    ∧ (∀ e, (translateText "Hello" "fr" envAllFail).snd = Except.error e →
        e = JsError.jsError "All translation APIs failed. Please try again later.")
    ∧ "All translation APIs failed. Please try again later." ≠ "" :=
  c2_aggregate_error_iff_all_fail "Hello" "fr" envAllFail ⟨"French", false, "fr"⟩ rfl

/-- C9: the loop over the three adapters always returns or throws during its
last iteration, so the trailing
`throw new Error('Translation failed with all APIs')` at line 288 is
unreachable: the loop outcome is never `none`, and no caller can observe
that error. -/
theorem c9_final_throw_unreachable (text targetLang : String) (env : ProviderEnv) :
    (translateLoop text targetLang env [0, 1, 2]).snd ≠ none
    ∧ (translateText text targetLang env).snd ≠
        Except.error (JsError.jsError "Translation failed with all APIs") := by
  refine ⟨translateLoop_012_some text targetLang env, ?_⟩
  cases hl : CONFIG_LANGUAGES targetLang with
  | none =>
    rw [translateText_of_invalid text targetLang env hl]
    intro h
    have h2 := Except.error.inj h
    simp at h2
  | some info =>
    rw [translateText_of_valid text targetLang env info hl]
    cases h0 : (attemptAt text targetLang env 0).snd with
    | ok r =>
      rw [translateLoop_012_ok0 text targetLang env r h0]
      exact fun h => Except.noConfusion h
    | error e0 =>
      cases h1 : (attemptAt text targetLang env 1).snd with
      | ok r =>
        rw [translateLoop_012_ok1 text targetLang env e0 r h0 h1]
        exact fun h => Except.noConfusion h
      | error e1 =>
        cases h2 : (attemptAt text targetLang env 2).snd with
        | ok r =>
          rw [translateLoop_012_ok2 text targetLang env e0 e1 r h0 h1 h2]
          exact fun h => Except.noConfusion h
        | error e2 =>
          rw [translateLoop_012_allfail text targetLang env e0 e1 e2 h0 h1 h2]
          intro h
          have : (JsError.jsError "All translation APIs failed. Please try again later.") =
              JsError.jsError "Translation failed with all APIs" := by
            exact Except.error.inj h
          simp at this

/-- C10: if the target language code is not one of the four supported codes
(en, ur, hi, fr), `translateText` throws a `TypeError` — reading `.name` of
the `undefined` registry entry at line 239 — before any adapter runs: its
request trace is empty, so no network request is made. -/
theorem c10_unknown_language_type_error (text targetLang : String) (env : ProviderEnv)
    (h1 : targetLang ≠ "en") (h2 : targetLang ≠ "ur") (h3 : targetLang ≠ "hi")
    (h4 : targetLang ≠ "fr") :
    translateText text targetLang env =
      ([], Except.error (JsError.typeError "Cannot read properties of undefined (reading name)")) := by
  apply translateText_of_invalid
  simp [CONFIG_LANGUAGES, h1, h2, h3, h4]

/-- Witness for C10 at the unsupported code "de", with every provider ready
to answer — none is consulted. -/
theorem c10_witness :
    translateText "Hello" "de"
      ⟨0, FetchResult.response 200 (some ⟨some "Hallo"⟩),
       0, FetchResult.response 200 (some ⟨some ⟨some "Hallo"⟩⟩),
       0, FetchResult.response 200 (some ⟨some "Hallo"⟩)⟩ =
      ([], Except.error (JsError.typeError "Cannot read properties of undefined (reading name)")) :=
  c10_unknown_language_type_error "Hello" "de"
    ⟨0, FetchResult.response 200 (some ⟨some "Hallo"⟩),
     0, FetchResult.response 200 (some ⟨some ⟨some "Hallo"⟩⟩),
     0, FetchResult.response 200 (some ⟨some "Hallo"⟩)⟩
    (by decide) (by decide) (by decide) (by decide)

/-- C7: `translateText` is a deterministic function of its inputs and of the
providers' behaviour: the source reads no mutable state inside the call, so
two calls with identical (text, targetLanguage) against the same (stable)
provider environment yield identical results. -/
theorem c7_deterministic_idempotent (text targetLang : String) (env env2 : ProviderEnv)
    (hstable : env = env2) :
    translateText text targetLang env = translateText text targetLang env2 := by
  rw [hstable]

/-- Witness for C7: two identical calls against the same stable mock set. -/
theorem c7_witness :
    translateText "Hello" "fr" envAllFail = translateText "Hello" "fr" envAllFail :=
  c7_deterministic_idempotent "Hello" "fr" envAllFail envAllFail rfl

theorem setFetchFail_attempt_err (text targetLang : String) (env : ProviderEnv) (info : LangInfo)
    (hlang : CONFIG_LANGUAGES targetLang = some info) (i : Nat) (hi : i < 3) :
    ∃ e, (attemptAt text targetLang (setFetchFail env i) i).snd = Except.error e := by
  have hi3 : i = 0 ∨ i = 1 ∨ i = 2 := by omega
  rcases hi3 with rfl | rfl | rfl
  · refine ⟨JsError.typeError "Failed to fetch", ?_⟩
    rw [attemptAt_zero_snd_of_le text targetLang (setFetchFail env 0) info hlang (Nat.zero_le _)]
    rfl
  · refine ⟨JsError.typeError "Failed to fetch", ?_⟩
    rw [attemptAt_one_snd_of_le text targetLang (setFetchFail env 1) info hlang (Nat.zero_le _)]
    rfl
  · refine ⟨JsError.typeError "Failed to fetch", ?_⟩
    rw [attemptAt_two_snd_of_le text targetLang (setFetchFail env 2) info hlang (Nat.zero_le _)]
    rfl

theorem setFetchFail_attempt_other (text targetLang : String) (env : ProviderEnv) (i j : Nat)
    (hi : i < 3) (hj : j < 3) (hne : j ≠ i) :
    attemptAt text targetLang (setFetchFail env i) j = attemptAt text targetLang env j := by
  have hi3 : i = 0 ∨ i = 1 ∨ i = 2 := by omega
  have hj3 : j = 0 ∨ j = 1 ∨ j = 2 := by omega
  rcases hi3 with rfl | rfl | rfl <;> rcases hj3 with rfl | rfl | rfl <;>
    first
    | rfl
    | exact absurd rfl hne

/-- C3: for a valid target language, if the call of attempt `i` takes longer than
the 10000 ms budget, the raced attempt fails with `Error("Request timeout")`;
the whole orchestration then behaves exactly as if provider `i` had plainly
failed (even when the slow call would eventually have delivered a successful
response); and the request trace stays a sublist of the one-request-per-
provider sequence, so the timed-out adapter is never retried. -/
theorem c3_timeout_treated_as_failure
    (text targetLang : String) (env : ProviderEnv) (info : LangInfo) (i : Nat)
    (hlang : CONFIG_LANGUAGES targetLang = some info) (hi : i < 3)
    (hd : TIMEOUT_MS < attemptDuration env i) :
    (attemptAt text targetLang env i).snd = Except.error (JsError.jsError "Request timeout")
    ∧ translateText text targetLang env = translateText text targetLang (setFetchFail env i)
    ∧ List.Sublist (translateText text targetLang env).fst
        [lingvaReq info.code text, mymemoryReq info.code text, libreReq info.code text] := by
  have htime := attemptAt_snd_timeout text targetLang env info i hi hlang hd
  refine ⟨htime, ?_, translateText_fst_sublist text targetLang env info hlang⟩
  apply translateText_congr
  · intro j hj
    have hj3 : j = 0 ∨ j = 1 ∨ j = 2 := by simpa using hj
    rcases hj3 with rfl | rfl | rfl <;>
      simp [attemptAt_zero_fst text targetLang, attemptAt_one_fst text targetLang,
        attemptAt_two_fst text targetLang, hlang]
  · intro j hj
    have hj3 : j = 0 ∨ j = 1 ∨ j = 2 := by simpa using hj
    by_cases hji : j = i
    · subst hji
      exact Or.inr ⟨⟨_, htime⟩, setFetchFail_attempt_err text targetLang env info hlang j (by omega)⟩
    · have hother := setFetchFail_attempt_other text targetLang env i j hi (by omega) hji
      exact Or.inl (by rw [hother])

/-- Environment for the C3 witness: Lingva would answer successfully but only
after 20000 ms; MyMemory answers at once. -/
def envLingvaSlow : ProviderEnv :=
  ⟨20000, FetchResult.response 200 (some ⟨some "Bonjour"⟩),
   0, FetchResult.response 200 (some ⟨some ⟨some "Salut"⟩⟩),
   0, FetchResult.networkError⟩

/-- Witness for C3 at attempt 0 with a 20000 ms Lingva call. -/
theorem c3_witness :
    (attemptAt "Hello" "fr" envLingvaSlow 0).snd = Except.error (JsError.jsError "Request timeout")
    ∧ translateText "Hello" "fr" envLingvaSlow =
        translateText "Hello" "fr" (setFetchFail envLingvaSlow 0)
    ∧ List.Sublist (translateText "Hello" "fr" envLingvaSlow).fst
        [lingvaReq "fr" "Hello", mymemoryReq "fr" "Hello", libreReq "fr" "Hello"] :=
  c3_timeout_treated_as_failure "Hello" "fr" envLingvaSlow ⟨"French", false, "fr"⟩ 0
    rfl (by decide) (by decide)

/-- C5 counterexample: at input ("Hello", "fr"), the JSON body the
LibreTranslate adapter actually POSTs is
`{ q: "Hello", source: "en", target: "fr", format: "text" }` — its `source`
field is the fixed string "en" (line 213 of the source), not "auto" as the
claim states. -/
theorem c5_counterexample :
    ((translateWithLibreTranslate "Hello" "fr"
        (FetchResult.response 200 (some ⟨some "Bonjour"⟩))).fst.map (fun rq => rq.body)) =
      [some ⟨"Hello", "en", "fr", "text"⟩]
    ∧ ("en" : String) ≠ "auto" := by
  constructor
  · rfl
  · decide

/-- C5 (amended): for every input text and valid target language, the
provider-C adapter sends one POST with a JSON content type to the fixed
LibreTranslate endpoint, with a JSON body of exactly the shape
`{q, source:"en", target, format:"text"}` and no abort signal; and it
succeeds — reading the `translatedText` field into the result under the
provider name "LibreTranslate" — exactly when the response is HTTP 2xx with
a parsable body whose `translatedText` field is present and non-empty, and
fails otherwise. -/
theorem c5_libre_adapter_contract (text targetLang : String) (info : LangInfo)
    (fenv : FetchResult LibreBody) (hlang : CONFIG_LANGUAGES targetLang = some info) :
    (translateWithLibreTranslate text targetLang fenv).fst =
      [⟨ReqUrl.plain "https://libretranslate.com/translate", HttpMethod.POST, true,
        some ⟨text, "en", info.code, "text"⟩, none⟩]
    ∧ (∀ r, (translateWithLibreTranslate text targetLang fenv).snd = Except.ok r ↔
        ∃ status data s, fenv = FetchResult.response status (some data) ∧
          statusOk status = true ∧ data.translatedText = some s ∧ s ≠ "" ∧
          r = ⟨s, "LibreTranslate"⟩) := by
  rw [translateWithLibreTranslate_eq text targetLang info fenv hlang]
  exact ⟨rfl, fun r => libreParse_ok_iff fenv r⟩

/-- Witness for C5 (amended) at a concrete successful exchange. -/
theorem c5_witness :
    (translateWithLibreTranslate "Hello" "fr"
        (FetchResult.response 200 (some ⟨some "Bonjour"⟩))).fst =
      [⟨ReqUrl.plain "https://libretranslate.com/translate", HttpMethod.POST, true,
        some ⟨"Hello", "en", "fr", "text"⟩, none⟩]
    ∧ (∀ r, (translateWithLibreTranslate "Hello" "fr"
          (FetchResult.response 200 (some ⟨some "Bonjour"⟩))).snd = Except.ok r ↔
        ∃ status data s,
          (FetchResult.response 200 (some (⟨some "Bonjour"⟩ : LibreBody))) =
            FetchResult.response status (some data) ∧
          statusOk status = true ∧ data.translatedText = some s ∧ s ≠ "" ∧
          r = ⟨s, "LibreTranslate"⟩) :=
  c5_libre_adapter_contract "Hello" "fr" ⟨"French", false, "fr"⟩
    (FetchResult.response 200 (some ⟨some "Bonjour"⟩)) rfl

/-- C6 counterexample: a 2xx Lingva response whose body does carry the
`translation` field — with the empty string as its value — is rejected by
the adapter with `Error("No translation in response")` (the JavaScript test
`!data.translation` is true for the falsy empty string), whereas the claim
requires it to return a result containing that field value. -/
theorem c6_counterexample :
    (translateWithLingva "Hello" "fr"
        (FetchResult.response 200 (some ⟨some ""⟩))).snd =
      Except.error (JsError.jsError "No translation in response")
    ∧ statusOk 200 = true
    ∧ (⟨some ""⟩ : LingvaBody).translation = some "" := by
  exact ⟨rfl, rfl, rfl⟩

/-- C6 (amended): for a valid target language, each adapter succeeds —
returning the expected translated-text field value and its provider name —
exactly when the transport delivers an HTTP 2xx response with a parsable
body whose expected field (Lingva: `translation`; MyMemory:
`responseData.translatedText`; LibreTranslate: `translatedText`) is present
and non-empty; in every other case (transport failure, non-2xx status,
unparsable body, missing or empty field) it fails with an error. -/
theorem c6_adapter_error_contract (text targetLang : String) (info : LangInfo)
    (fl : FetchResult LingvaBody) (fm : FetchResult MyMemoryBody) (fb : FetchResult LibreBody)
    (hlang : CONFIG_LANGUAGES targetLang = some info) :
    (∀ r, (translateWithLingva text targetLang fl).snd = Except.ok r ↔
      ∃ status data s, fl = FetchResult.response status (some data) ∧
        statusOk status = true ∧ data.translation = some s ∧ s ≠ "" ∧
        r = ⟨s, "Lingva Translate"⟩)
    ∧ (∀ r, (translateWithMyMemory text targetLang fm).snd = Except.ok r ↔
      ∃ status data inner s, fm = FetchResult.response status (some data) ∧
        statusOk status = true ∧ data.responseData = some inner ∧
        inner.translatedText = some s ∧ s ≠ "" ∧ r = ⟨s, "MyMemory"⟩)
    ∧ (∀ r, (translateWithLibreTranslate text targetLang fb).snd = Except.ok r ↔
      ∃ status data s, fb = FetchResult.response status (some data) ∧
        statusOk status = true ∧ data.translatedText = some s ∧ s ≠ "" ∧
        r = ⟨s, "LibreTranslate"⟩) := by
  rw [translateWithLingva_eq text targetLang info fl hlang,
      translateWithMyMemory_eq text targetLang info fm hlang,
      translateWithLibreTranslate_eq text targetLang info fb hlang]
  exact ⟨fun r => lingvaParse_ok_iff fl r, fun r => mymemoryParse_ok_iff fm r,
    fun r => libreParse_ok_iff fb r⟩

/-- Witness for C6 (amended) at concrete exchanges for the three adapters. -/
theorem c6_witness :
    (∀ r, (translateWithLingva "Hi" "ur"
        (FetchResult.response 200 (some ⟨some "Salam"⟩))).snd = Except.ok r ↔
      ∃ status data s,
        (FetchResult.response 200 (some (⟨some "Salam"⟩ : LingvaBody))) =
          FetchResult.response status (some data) ∧
        statusOk status = true ∧ data.translation = some s ∧ s ≠ "" ∧
        r = ⟨s, "Lingva Translate"⟩)
    ∧ (∀ r, (translateWithMyMemory "Hi" "ur"
        (FetchResult.response 500 none)).snd = Except.ok r ↔
      ∃ status data inner s,
        (FetchResult.response 500 (none : Option MyMemoryBody)) =
          FetchResult.response status (some data) ∧
        statusOk status = true ∧ data.responseData = some inner ∧
        inner.translatedText = some s ∧ s ≠ "" ∧ r = ⟨s, "MyMemory"⟩)
    ∧ (∀ r, (translateWithLibreTranslate "Hi" "ur"
        (FetchResult.networkError)).snd = Except.ok r ↔
      ∃ status data s,
        (FetchResult.networkError : FetchResult LibreBody) =
          FetchResult.response status (some data) ∧
        statusOk status = true ∧ data.translatedText = some s ∧ s ≠ "" ∧
        r = ⟨s, "LibreTranslate"⟩) :=
  c6_adapter_error_contract "Hi" "ur" ⟨"Urdu", true, "ur"⟩
    (FetchResult.response 200 (some ⟨some "Salam"⟩)) (FetchResult.response 500 none)
    FetchResult.networkError rfl

/-- Environment in which every provider would answer successfully, but only
after 20000 ms — past the 10000 ms budget of every attempt. -/
def envAllSlow : ProviderEnv :=
  ⟨20000, FetchResult.response 200 (some ⟨some "Bonjour"⟩),
   20000, FetchResult.response 200 (some ⟨some ⟨some "Bonjour"⟩⟩),
   20000, FetchResult.response 200 (some ⟨some "Bonjour"⟩)⟩

/-- C8 counterexample: a run in which the 10000 ms timeout fires on all three
attempts (each underlying call needs 20000 ms), yet every request the
orchestrator issued was created without an AbortSignal — in the fetch API a
request with no signal cannot be cancelled, so the firing timeout aborts
nothing in flight; it only rejects the race while the request continues.
The source constructs an AbortController (line 253) but never passes
`controller.signal` to any `fetch` call (lines 169, 189, 208). -/
theorem c8_counterexample :
    (translateText "Hello" "fr" envAllSlow).snd =
      Except.error (JsError.jsError "All translation APIs failed. Please try again later.")
    ∧ ((translateText "Hello" "fr" envAllSlow).fst.map (fun rq => rq.signal)) =
        [none, none, none] := by
  exact ⟨rfl, rfl⟩

/-- C8 (amended): when the 10000 ms timeout fires on attempt `i`, the
orchestrator treats the attempt as failed (the race rejects with
`Error("Request timeout")`) and moves on without retrying that adapter, but
it does not abort the in-flight provider call: every request issued during
the whole orchestration carries no abort signal, so none of them is
cancellable by the timer. -/
theorem c8_timeout_without_abort
    (text targetLang : String) (env : ProviderEnv) (info : LangInfo) (i : Nat)
    (hlang : CONFIG_LANGUAGES targetLang = some info) (hi : i < 3)
    (hd : TIMEOUT_MS < attemptDuration env i) :
    (attemptAt text targetLang env i).snd = Except.error (JsError.jsError "Request timeout")
    ∧ (∀ rq ∈ (translateText text targetLang env).fst, rq.signal = none) :=
  ⟨attemptAt_snd_timeout text targetLang env info i hi hlang hd,
   translateText_signal_none text targetLang env⟩

/-- Witness for C8 (amended) at attempt 0 of the all-slow environment. -/
theorem c8_witness :
    (attemptAt "Hello" "fr" envAllSlow 0).snd = Except.error (JsError.jsError "Request timeout")
    ∧ (∀ rq ∈ (translateText "Hello" "fr" envAllSlow).fst, rq.signal = none) :=
  c8_timeout_without_abort "Hello" "fr" envAllSlow ⟨"French", false, "fr"⟩ 0
    rfl (by decide) (by decide)
